import Mathlib

/-!
Verification development for the ordering-service startup code
(src/orderer/main.go) and the wire-message declarations
(src/protos/fabric_next.proto).

The Go code under src/orderer/main.go is embedded shallowly: the bootstrap
configuration scan, the configuration-handler map construction, the solo and
kafka launch paths, and the stub crypto helper.  External collaborators that
live outside src/ (the rawledger iterator, proto unmarshalling, the
atomicbroadcast message types, configtx.NewConfigurationManager) are modelled
at their interface boundary: iteration is a list of (block, status) results
already available at call time, unmarshalling is an explicit parameter
`parse`, and external fallible calls are Except-valued inputs.
-/

namespace Fabric

/-- Byte strings, modelled as lists of naturals. -/
abbrev Bytes := List Nat

/-- Status codes returned by iteration and delivery (ab.Status). -/
inductive Status where
  | SUCCESS
  | NOT_FOUND
  | SERVICE_UNAVAILABLE
  | BAD_REQUEST
deriving DecidableEq

/-- Modelled from the spec: the atomicbroadcast Message carried inside a
block (`type, version/timestamp elided, payload bytes`); the Message type of
the atomicbroadcast protos is not under src/.  The bootstrap scan reads only
the `data` bytes of a block's messages, but the type tag is kept in the model
so that theorems can state which fields the scan does *not* inspect. -/
structure Msg where
  mtype : Nat
  data : Bytes
deriving DecidableEq

/-- Modelled from the spec: a Block as seen by the bootstrap scan — an
ordered list of messages (the previous-block hash is irrelevant to the scan
and elided). -/
structure Block where
  messages : List Msg
deriving DecidableEq

/-- Modelled from the spec: ConfigurationType of a configuration item,
`ConfigurationType ∈ {Policy, ChannelParameters, …}`; the declaring
atomicbroadcast proto file is not under src/. -/
inductive Configuration_ConfigurationType where
  | Policy
  | ChannelParameters
deriving DecidableEq

/-- Modelled from the spec: ConfigurationEnvelope
`{lastUpdate : Envelope, items : mapping from ConfigurationType to
configuration item}`; the declaring proto file is not under src/.  The
lastUpdate envelope and the items are kept as bytes. -/
structure ConfigurationEnvelope where
  lastUpdate : Bytes
  items : List (Configuration_ConfigurationType × Bytes)
deriving DecidableEq

/-- The enumeration of all declared configuration types, standing for the
generated map `ab.Configuration_ConfigurationType_name` that the Go code
ranges over (every declared enum value appears exactly once). -/
def Configuration_ConfigurationType_name :
    List (Configuration_ConfigurationType × String) :=
  [(Configuration_ConfigurationType.Policy, "Policy"),
   (Configuration_ConfigurationType.ChannelParameters, "ChannelParameters")]

/-- The two kinds of configuration handlers registered by
bootstrapConfigManager (src/orderer/main.go:102-113): the policy manager
built over the stub crypto helper, and the generic pass-through bytes
handler from configtx.NewBytesHandler. -/
inductive Handler where
  | policyManagerHandler
  | bytesHandler
deriving DecidableEq

/-- Embedding of the configuration-handler map construction in
bootstrapConfigManager (src/orderer/main.go:104-113): iterate over every
declared ConfigurationType; the Policy type maps to the policy manager,
every other type maps to a fresh bytes handler. -/
def configHandlerMap : List (Configuration_ConfigurationType × Handler) :=
  Configuration_ConfigurationType_name.map (fun p =>
    match p.1 with
    | Configuration_ConfigurationType.Policy =>
        (p.1, Handler.policyManagerHandler)
    | _ => (p.1, Handler.bytesHandler))

/-- Embedding of the xxxCryptoHelper struct (src/orderer/main.go:61): a
stand-in crypto handler that considers all signatures to be valid. -/
structure xxxCryptoHelper
deriving DecidableEq

/-- Embedding of xxxCryptoHelper.VerifySignature (src/orderer/main.go:63-65):
returns true on every input. -/
def xxxCryptoHelper.VerifySignature (_ : xxxCryptoHelper)
    (_msg _ids _sigs : Bytes) : Bool :=
  true

/-- Embedding of the loop body of retrieveConfiguration
(src/orderer/main.go:77-99).  The iterator obtained from
rl.Iterator(SeekInfo_OLDEST, 0) is modelled as the list of (block, status)
pairs it will deliver, oldest first, that are already available at the
moment of the call (the select's default branch returns as soon as the
ready channel is not immediately ready, so only those entries are ever
seen).  `parse` stands for proto.Unmarshal into a ConfigurationEnvelope:
it yields some envelope exactly when the bytes unmarshal successfully.
A non-SUCCESS status panics, a block whose message count is not exactly
one is skipped, and a successful unmarshal replaces the running
lastConfigTx. -/
def retrieveConfigurationLoop (parse : Bytes → Option ConfigurationEnvelope) :
    List (Block × Status) → Option ConfigurationEnvelope →
      Except String (Option ConfigurationEnvelope)
  | [], lastConfigTx => Except.ok lastConfigTx
  | (block, status) :: rest, lastConfigTx =>
    if status ≠ Status.SUCCESS then
      Except.error "Error parsing blockchain at startup"
    else
      match block.messages with
      | [m] =>
        match parse m.data with
        | some maybeConfigTx =>
            retrieveConfigurationLoop parse rest (some maybeConfigTx)
        | none => retrieveConfigurationLoop parse rest lastConfigTx
      | _ => retrieveConfigurationLoop parse rest lastConfigTx

/-- Embedding of retrieveConfiguration (src/orderer/main.go:71-100): scan the
available chain from OLDEST forward with lastConfigTx initially nil. -/
def retrieveConfiguration (parse : Bytes → Option ConfigurationEnvelope)
    (entries : List (Block × Status)) :
    Except String (Option ConfigurationEnvelope) :=
  retrieveConfigurationLoop parse entries none

/-- Fuel-indexed version of the retrieveConfiguration loop: one unit of fuel
is consumed per iteration of the Go for/select loop (the final iteration
that takes the default branch included).  `none` means the fuel ran out with
the loop still running. -/
def retrieveConfigurationFuel (parse : Bytes → Option ConfigurationEnvelope) :
    Nat → List (Block × Status) → Option ConfigurationEnvelope →
      Option (Except String (Option ConfigurationEnvelope))
  | 0, _, _ => none
  | _ + 1, [], lastConfigTx => some (Except.ok lastConfigTx)
  | fuel + 1, (block, status) :: rest, lastConfigTx =>
    if status ≠ Status.SUCCESS then
      some (Except.error "Error parsing blockchain at startup")
    else
      match block.messages with
      | [m] =>
        match parse m.data with
        | some maybeConfigTx =>
            retrieveConfigurationFuel parse fuel rest (some maybeConfigTx)
        | none => retrieveConfigurationFuel parse fuel rest lastConfigTx
      | _ => retrieveConfigurationFuel parse fuel rest lastConfigTx

/-- What the scan can observe of a block besides the iteration status:
whether it has exactly one message, and if so that message's data bytes. -/
def scanView (b : Block) : Option Bytes :=
  match b.messages with
  | [m] => some m.data
  | _ => none

/-- Specification-side reading of what makes a block a configuration block:
it carries exactly one message and that message's bytes unmarshal as a
ConfigurationEnvelope. -/
def configOf (parse : Bytes → Option ConfigurationEnvelope) (b : Block) :
    Option ConfigurationEnvelope :=
  match b.messages with
  | [m] => parse m.data
  | _ => none

/-- The accumulator update one scan iteration performs on a SUCCESS entry:
the block's configuration replaces the running lastConfigTx when the block
is a single-message block whose bytes parse, and the accumulator is kept
otherwise. -/
def scanStep (parse : Bytes → Option ConfigurationEnvelope) (b : Block)
    (acc : Option ConfigurationEnvelope) : Option ConfigurationEnvelope :=
  match configOf parse b with
  | some ce => some ce
  | none => acc

/-- Last element of a list if it has one, otherwise a fallback accumulator. -/
def lastOr {α : Type} : List α → Option α → Option α
  | [], acc => acc
  | a :: l, _ => lastOr l (some a)

/-- Equality of Except values is decidable when it is on both sides. -/
instance {ε α : Type} [DecidableEq ε] [DecidableEq α] :
    DecidableEq (Except ε α) := fun x y =>
  match x, y with
  | Except.ok a, Except.ok b =>
    if h : a = b then Decidable.isTrue (by rw [h])
    else Decidable.isFalse (by intro hc; cases hc; exact h rfl)
  | Except.error a, Except.error b =>
    if h : a = b then Decidable.isTrue (by rw [h])
    else Decidable.isFalse (by intro hc; cases hc; exact h rfl)
  | Except.ok _, Except.error _ => Decidable.isFalse (by intro hc; cases hc)
  | Except.error _, Except.ok _ => Decidable.isFalse (by intro hc; cases hc)

/-- conf.General of the loaded process configuration (config.TopLevel):
the fields main.go reads. -/
structure GeneralConf where
  listenAddress : String
  listenPort : Nat
  genesisMethod : String
  queueSize : Nat
  batchSize : Nat
  maxWindowSize : Nat
  batchTimeout : Nat
deriving DecidableEq

/-- conf.FileLedger: the Location field read by launchSolo (the temp-dir
name-pattern field only feeds ioutil.TempDir and is elided; the TempDir call
itself is modelled as an Except-valued input). -/
structure FileLedgerConf where
  location : String
deriving DecidableEq

/-- conf.RAMLedger: the HistorySize field read by launchSolo. -/
structure RAMLedgerConf where
  historySize : Nat
deriving DecidableEq

/-- The loaded process configuration (config.Load result), restricted to the
fields the launch paths read. -/
structure TopLevel where
  general : GeneralConf
  fileLedger : FileLedgerConf
  ramLedger : RAMLedgerConf
deriving DecidableEq

/-- The rawledger implementation chosen by launchSolo: file-backed at a
location, or RAM-backed with a history size. -/
inductive LedgerBackend where
  | file (location : String)
  | ram (historySize : Nat)
deriving DecidableEq

/-- Embedding of the ledger selection block of launchSolo
(src/orderer/main.go:147-166).  The selector is the ORDERER_LEDGER_TYPE
environment variable (the code comments it "Stand in until real config"):
"file" chooses the file ledger at conf.FileLedger.Location, falling back to
a fresh temp dir (an Except-valued external call) when the location is
empty and panicking if that call fails; "ram" falls through to the default,
which is the RAM ledger sized by conf.RAMLedger.HistorySize. -/
def selectLedgerBackend (ledgerTypeEnv : String) (conf : TopLevel)
    (tempDirResult : Except String String) : Except String LedgerBackend :=
  match ledgerTypeEnv with
  | "file" =>
    if conf.fileLedger.location = "" then
      match tempDirResult with
      | Except.error e => Except.error ("Error creating temp dir: " ++ e)
      | Except.ok d => Except.ok (LedgerBackend.file d)
    else Except.ok (LedgerBackend.file conf.fileLedger.location)
  | _ => Except.ok (LedgerBackend.ram conf.ramLedger.historySize)

/-- The configuration manager as assembled by bootstrapConfigManager: the
bootstrap envelope together with the per-type handler map (the policy
manager inside it is the one built over xxxCryptoHelper). -/
structure ConfigManagerModel where
  lastConfigTx : ConfigurationEnvelope
  handlers : List (Configuration_ConfigurationType × Handler)
deriving DecidableEq

/-- Embedding of bootstrapConfigManager (src/orderer/main.go:102-120): build
the handler map, then call the external configtx.NewConfigurationManager,
whose possible failure is an input here; main.go panics on that error, which
launchSolo below reflects. -/
def bootstrapConfigManager (newManagerError : Option String)
    (lastConfigTx : ConfigurationEnvelope) : Except String ConfigManagerModel :=
  match newManagerError with
  | some e => Except.error e
  | none => Except.ok { lastConfigTx := lastConfigTx, handlers := configHandlerMap }

/-- The arguments launchSolo passes to solo.New (src/orderer/main.go:178),
besides the gRPC server handle: queue size, batch size, max window size,
batch timeout and the raw ledger.  Note there is no configuration-manager or
policy field: solo.New is not given one. -/
structure SoloArgs where
  queueSize : Nat
  batchSize : Nat
  maxWindowSize : Nat
  batchTimeout : Nat
  backend : LedgerBackend
deriving DecidableEq

/-- The external inputs of one launchSolo run: the outcome of net.Listen, of
the static bootstrapper's GenesisBlock call, the ORDERER_LEDGER_TYPE
environment variable, the ioutil.TempDir outcome, the (block, status)
entries the constructed ledger's OLDEST iterator has available, and the
outcome of the external configtx.NewConfigurationManager call. -/
structure SoloDeps where
  listenOK : Bool
  genesisBlockResult : Except String Block
  ledgerTypeEnv : String
  tempDirResult : Except String String
  chain : List (Block × Status)
  newManagerError : Option String
deriving DecidableEq

/-- The possible outcomes of a launchSolo run: return after a failed listen,
a panic, or reaching solo.New and grpcServer.Serve with the given args. -/
inductive SoloOutcome where
  | listenFailed
  | panicked (msg : String)
  | serving (args : SoloArgs)
deriving DecidableEq

/-- True exactly on the panicked outcome. -/
def SoloOutcome.isPanicked : SoloOutcome → Bool
  | SoloOutcome.panicked _ => true
  | _ => false

/-- True exactly on the serving outcome. -/
def SoloOutcome.isServing : SoloOutcome → Bool
  | SoloOutcome.serving _ => true
  | _ => false

/-- Embedding of launchSolo (src/orderer/main.go:122-180), in the order of
the code: listen (plain return on failure), genesis-method switch (panic on
anything but "static"), GenesisBlock (panic on error), ledger selection by
the ORDERER_LEDGER_TYPE environment variable (panic on temp-dir error),
retrieveConfiguration over the ledger (panic on scan error, panic when no
configuration transaction was found), bootstrapConfigManager (panic on
error), and finally solo.New + Serve.  The constructed configuration
manager is bound and then discarded, mirroring the code's
`_ = configManager` ("XXX actually use the config manager in the future"):
the serving args do not contain it. -/
def launchSolo (parse : Bytes → Option ConfigurationEnvelope)
    (conf : TopLevel) (deps : SoloDeps) : SoloOutcome :=
  if deps.listenOK = false then SoloOutcome.listenFailed
  else if conf.general.genesisMethod ≠ "static" then
    SoloOutcome.panicked ("Unknown genesis method " ++ conf.general.genesisMethod)
  else
    match deps.genesisBlockResult with
    | Except.error e =>
        SoloOutcome.panicked ("Error retrieving the genesis block " ++ e)
    | Except.ok _genesisBlock =>
      match selectLedgerBackend deps.ledgerTypeEnv conf deps.tempDirResult with
      | Except.error e => SoloOutcome.panicked e
      | Except.ok backend =>
        match retrieveConfiguration parse deps.chain with
        | Except.error e => SoloOutcome.panicked e
        | Except.ok none => SoloOutcome.panicked "No chain configuration found"
        | Except.ok (some lastConfigTx) =>
          match bootstrapConfigManager deps.newManagerError lastConfigTx with
          | Except.error e => SoloOutcome.panicked e
          | Except.ok _configManager =>
            SoloOutcome.serving
              { queueSize := conf.general.queueSize
                batchSize := conf.general.batchSize
                maxWindowSize := conf.general.maxWindowSize
                batchTimeout := conf.general.batchTimeout
                backend := backend }

/-- The startup steps of the two launch paths, for comparing what each path
performs before serving. -/
inductive StartupAction where
  | newGrpcServer
  | listen
  | selectBootstrapper
  | retrieveGenesisBlock
  | selectLedger
  | scanLedgerForConfig
  | buildConfigManager
  | newSoloConsenter
  | parseFlags
  | setKafkaLogLevel
  | newKafkaConsenter
  | registerAtomicBroadcast
  | serveGrpc
deriving DecidableEq

/-- The sequence of startup steps of launchSolo (src/orderer/main.go:122-180),
in code order; solo.New receives the gRPC server and registers the
AtomicBroadcast service itself. -/
def soloStartupTrace : List StartupAction :=
  [StartupAction.newGrpcServer, StartupAction.listen,
   StartupAction.selectBootstrapper, StartupAction.retrieveGenesisBlock,
   StartupAction.selectLedger, StartupAction.scanLedgerForConfig,
   StartupAction.buildConfigManager, StartupAction.newSoloConsenter,
   StartupAction.serveGrpc]

/-- The sequence of startup steps of launchKafka (src/orderer/main.go:182-209),
in code order: flag parsing and log setup, kafka.New, listen, gRPC server
creation, explicit RegisterAtomicBroadcastServer, Serve. -/
def kafkaStartupTrace : List StartupAction :=
  [StartupAction.parseFlags, StartupAction.setKafkaLogLevel,
   StartupAction.newKafkaConsenter, StartupAction.listen,
   StartupAction.newGrpcServer, StartupAction.registerAtomicBroadcast,
   StartupAction.serveGrpc]

/-- The declared variants of Message2.Type
(src/protos/fabric_next.proto:82-109), with their proto tag numbers. -/
inductive Message2Type where
  | UNDEFINED
  | DISCOVERY
  | SYNC
  | PROPOSAL
  | PROPOSAL_SET
  | PROPOSAL_RESULT
  | PROPOSAL_SET_RESULT
  | TRANSACTION
deriving DecidableEq

/-- The proto tag number of each declared Message2.Type variant. -/
def Message2Type.tag : Message2Type → Nat
  | Message2Type.UNDEFINED => 0
  | Message2Type.DISCOVERY => 1
  | Message2Type.SYNC => 2
  | Message2Type.PROPOSAL => 3
  | Message2Type.PROPOSAL_SET => 4
  | Message2Type.PROPOSAL_RESULT => 5
  | Message2Type.PROPOSAL_SET_RESULT => 6
  | Message2Type.TRANSACTION => 7

/-- The names of the declared Message2.Type variants, in tag order, exactly
as they appear in src/protos/fabric_next.proto:82-109. -/
def message2TypeNames : List String :=
  ["UNDEFINED", "DISCOVERY", "SYNC", "PROPOSAL", "PROPOSAL_SET",
   "PROPOSAL_RESULT", "PROPOSAL_SET_RESULT", "TRANSACTION"]

/-- A concrete stand-in for proto.Unmarshal used in the concrete test
ledgers: bytes starting with 1 unmarshal (the tail becomes the lastUpdate
bytes), anything else fails to unmarshal. -/
def testParse : Bytes → Option ConfigurationEnvelope
  | 1 :: rest => some { lastUpdate := rest, items := [] }
  | _ => none

/-- A plain transaction message: its data does not unmarshal under
testParse. -/
def txMsg : Msg := { mtype := 7, data := [0] }

/-- A configuration message A: its data unmarshals under testParse. -/
def configAMsg : Msg := { mtype := 7, data := [1, 10] }

/-- A configuration message B, distinct from A. -/
def configBMsg : Msg := { mtype := 7, data := [1, 20] }

/-- A block holding one plain transaction. -/
def txBlock : Block := { messages := [txMsg] }

/-- A block holding configuration message A alone. -/
def configABlock : Block := { messages := [configAMsg] }

/-- A block holding configuration message B alone. -/
def configBBlock : Block := { messages := [configBMsg] }

/-- The spec's example ledger [tx, tx, configA, tx, configB, tx]. -/
def chainEx : List Block :=
  [txBlock, txBlock, configABlock, txBlock, configBBlock, txBlock]

/-- The spec's multi-message example: one block holding [configA, tx]
together. -/
def multiMsgChain : List Block := [{ messages := [configAMsg, txMsg] }]

/-- A concrete loaded configuration for the closed instances. -/
def confEx : TopLevel :=
  { general :=
      { listenAddress := "127.0.0.1", listenPort := 7050,
        genesisMethod := "static", queueSize := 100, batchSize := 10,
        maxWindowSize := 1000, batchTimeout := 10 }
    fileLedger := { location := "/var/ledger" }
    ramLedger := { historySize := 10 } }

/-- Concrete launchSolo inputs whose ledger has no configuration
transaction at all. -/
def depsNoConfig : SoloDeps :=
  { listenOK := true, genesisBlockResult := Except.ok txBlock,
    ledgerTypeEnv := "ram", tempDirResult := Except.ok "/tmpdir",
    chain := [(txBlock, Status.SUCCESS), (txBlock, Status.SUCCESS)],
    newManagerError := none }

/-- Concrete launchSolo inputs that reach the serving outcome. -/
def depsServing : SoloDeps :=
  { listenOK := true, genesisBlockResult := Except.ok txBlock,
    ledgerTypeEnv := "ram", tempDirResult := Except.ok "/tmpdir",
    chain := [(txBlock, Status.SUCCESS), (configABlock, Status.SUCCESS)],
    newManagerError := none }

/-- A one-block ledger whose single block carries configuration A alone. -/
def chainA : List (Block × Status) := [(configABlock, Status.SUCCESS)]

/-- A one-block ledger whose single block carries configuration B alone. -/
def chainB : List (Block × Status) := [(configBBlock, Status.SUCCESS)]

/-- One scan step: the loop on a cons either panics on a bad status, or
keeps scanning the tail with the accumulator updated by scanStep. -/
lemma loop_cons (parse : Bytes → Option ConfigurationEnvelope)
    (b : Block) (s : Status) (rest : List (Block × Status))
    (acc : Option ConfigurationEnvelope) :
    retrieveConfigurationLoop parse ((b, s) :: rest) acc =
      if s ≠ Status.SUCCESS then
        Except.error "Error parsing blockchain at startup"
      else retrieveConfigurationLoop parse rest (scanStep parse b acc) := by
  rcases b with ⟨msgs⟩
  by_cases hs : s = Status.SUCCESS
  · rw [if_neg (by simp [hs])]
    subst hs
    cases msgs with
    | nil => rfl
    | cons m t =>
      cases t with
      | nil =>
        show (match parse m.data with
          | some ce => retrieveConfigurationLoop parse rest (some ce)
          | none => retrieveConfigurationLoop parse rest acc) = _
        cases hp : parse m.data with
        | none => simp [scanStep, configOf, hp]
        | some ce => simp [scanStep, configOf, hp]
      | cons m2 t2 => rfl
  · rw [if_pos hs]
    cases msgs with
    | nil => simp [retrieveConfigurationLoop, hs]
    | cons m t =>
      cases t with
      | nil => simp [retrieveConfigurationLoop, hs]
      | cons m2 t2 => simp [retrieveConfigurationLoop, hs]

/-- One fuelled scan step, in the same shape as loop_cons. -/
lemma fuel_cons (parse : Bytes → Option ConfigurationEnvelope)
    (b : Block) (s : Status) (rest : List (Block × Status))
    (acc : Option ConfigurationEnvelope) (n : Nat) :
    retrieveConfigurationFuel parse (n + 1) ((b, s) :: rest) acc =
      if s ≠ Status.SUCCESS then
        some (Except.error "Error parsing blockchain at startup")
      else retrieveConfigurationFuel parse n rest (scanStep parse b acc) := by
  rcases b with ⟨msgs⟩
  by_cases hs : s = Status.SUCCESS
  · rw [if_neg (by simp [hs])]
    subst hs
    cases msgs with
    | nil => rfl
    | cons m t =>
      cases t with
      | nil =>
        show (match parse m.data with
          | some ce => retrieveConfigurationFuel parse n rest (some ce)
          | none => retrieveConfigurationFuel parse n rest acc) = _
        cases hp : parse m.data with
        | none => simp [scanStep, configOf, hp]
        | some ce => simp [scanStep, configOf, hp]
      | cons m2 t2 => rfl
  · rw [if_pos hs]
    cases msgs with
    | nil => simp [retrieveConfigurationFuel, hs]
    | cons m t =>
      cases t with
      | nil => simp [retrieveConfigurationFuel, hs]
      | cons m2 t2 => simp [retrieveConfigurationFuel, hs]

/-- The single-message parse result of a block, through the scan view. -/
lemma configOf_eq_view (parse : Bytes → Option ConfigurationEnvelope)
    (b : Block) : configOf parse b = (scanView b).bind parse := by
  rcases b with ⟨msgs⟩
  cases msgs with
  | nil => rfl
  | cons m t =>
    cases t with
    | nil => rfl
    | cons m2 t2 => rfl

/-- lastOr with a some-fallback is the last element of the extended list. -/
lemma lastOr_some {α : Type} :
    ∀ (l : List α) (a : α), lastOr l (some a) = (a :: l).getLast? := by
  intro l
  induction l with
  | nil => intro a; rfl
  | cons b t ih =>
    intro a
    rw [lastOr, ih b, List.getLast?_cons_cons]

/-- lastOr with no fallback is getLast?. -/
lemma lastOr_none {α : Type} (l : List α) : lastOr l none = l.getLast? := by
  cases l with
  | nil => rfl
  | cons a t => rw [lastOr, lastOr_some]

/-- The scan over an all-SUCCESS chain returns the last single-message block
whose bytes parse, falling back to the accumulator. -/
lemma loop_map_success (parse : Bytes → Option ConfigurationEnvelope) :
    ∀ (chain : List Block) (acc : Option ConfigurationEnvelope),
      retrieveConfigurationLoop parse
          (chain.map (fun b => (b, Status.SUCCESS))) acc
        = Except.ok (lastOr (chain.filterMap (configOf parse)) acc) := by
  intro chain
  induction chain with
  | nil => intro acc; rfl
  | cons b rest ih =>
    intro acc
    rw [List.map_cons, loop_cons, if_neg (by simp), List.filterMap_cons, ih]
    cases hc : configOf parse b with
    | none => simp [scanStep, hc]
    | some ce => simp [scanStep, hc, lastOr]

/-- If any entry the iterator delivers carries a non-SUCCESS status, the
scan panics (the first such entry is reached, because every other branch of
the loop keeps iterating). -/
lemma loop_error_of_bad_status (parse : Bytes → Option ConfigurationEnvelope) :
    ∀ (entries : List (Block × Status)) (acc : Option ConfigurationEnvelope),
      (∃ p ∈ entries, p.2 ≠ Status.SUCCESS) →
      retrieveConfigurationLoop parse entries acc
        = Except.error "Error parsing blockchain at startup" := by
  intro entries
  induction entries with
  | nil =>
    intro acc h
    simp at h
  | cons p rest ih =>
    intro acc h
    rcases p with ⟨b, s⟩
    by_cases hs : s = Status.SUCCESS
    · subst hs
      have h' : ∃ q ∈ rest, q.2 ≠ Status.SUCCESS := by
        rcases h with ⟨q, hq, hne⟩
        rcases List.mem_cons.mp hq with h1 | h2
        · subst h1; exact absurd rfl hne
        · exact ⟨q, h2, hne⟩
      rw [loop_cons, if_neg (by simp)]
      exact ih (scanStep parse b acc) h'
    · rw [loop_cons, if_pos hs]

/-- The scan's outcome depends only on what it observes of each entry: the
status, whether the block has exactly one message, and that message's data
bytes.  Any two entry lists with the same observations produce the same
result. -/
lemma loop_view_congr (parse : Bytes → Option ConfigurationEnvelope) :
    ∀ (e1 e2 : List (Block × Status)) (acc : Option ConfigurationEnvelope),
      e1.map (fun p => (scanView p.1, p.2))
        = e2.map (fun p => (scanView p.1, p.2)) →
      retrieveConfigurationLoop parse e1 acc
        = retrieveConfigurationLoop parse e2 acc := by
  intro e1
  induction e1 with
  | nil =>
    intro e2 acc h
    cases e2 with
    | nil => rfl
    | cons q t => simp at h
  | cons p t ih =>
    intro e2 acc h
    cases e2 with
    | nil => simp at h
    | cons q t2 =>
      rcases p with ⟨b1, s1⟩
      rcases q with ⟨b2, s2⟩
      simp only [List.map_cons, List.cons.injEq, Prod.mk.injEq] at h
      obtain ⟨⟨hview, hstat⟩, hrest⟩ := h
      rw [loop_cons, loop_cons, hstat]
      by_cases hs : s2 = Status.SUCCESS
      · rw [if_neg (by simp [hs]), if_neg (by simp [hs])]
        have hstep : scanStep parse b1 acc = scanStep parse b2 acc := by
          unfold scanStep
          rw [configOf_eq_view, configOf_eq_view, hview]
        rw [hstep]
        exact ih t2 (scanStep parse b2 acc) hrest
      · rw [if_pos hs, if_pos hs]

/-- A panicked launchSolo outcome is not a serving one. -/
lemma isServing_false_of_isPanicked {o : SoloOutcome}
    (h : o.isPanicked = true) : o.isServing = false := by
  cases o with
  | listenFailed => simp [SoloOutcome.isPanicked] at h
  | panicked msg => rfl
  | serving args => simp [SoloOutcome.isPanicked] at h

/-- Whenever launchSolo reaches the serving outcome, the args handed to
solo.New are exactly the conf-derived sizes plus the selected backend:
nothing in them comes from the scanned configuration or the configuration
manager. -/
lemma launchSolo_serving_args (parse : Bytes → Option ConfigurationEnvelope)
    (conf : TopLevel) (deps : SoloDeps) (a : SoloArgs)
    (h : launchSolo parse conf deps = SoloOutcome.serving a) :
    ∃ backend,
      selectLedgerBackend deps.ledgerTypeEnv conf deps.tempDirResult
          = Except.ok backend
      ∧ a = { queueSize := conf.general.queueSize
              batchSize := conf.general.batchSize
              maxWindowSize := conf.general.maxWindowSize
              batchTimeout := conf.general.batchTimeout
              backend := backend } := by
  unfold launchSolo at h
  by_cases h1 : deps.listenOK = false
  · rw [if_pos h1] at h
    simp at h
  · rw [if_neg h1] at h
    by_cases h2 : conf.general.genesisMethod ≠ "static"
    · rw [if_pos h2] at h
      simp at h
    · rw [if_neg h2] at h
      cases hg : deps.genesisBlockResult with
      | error e => rw [hg] at h; simp at h
      | ok gb =>
        rw [hg] at h
        simp only at h
        cases hsel : selectLedgerBackend deps.ledgerTypeEnv conf
            deps.tempDirResult with
        | error e => rw [hsel] at h; simp at h
        | ok backend =>
          rw [hsel] at h
          simp only at h
          cases hscan : retrieveConfiguration parse deps.chain with
          | error e => rw [hscan] at h; simp at h
          | ok lc =>
            rw [hscan] at h
            cases lc with
            | none => simp at h
            | some ce =>
              simp only at h
              cases hcm : bootstrapConfigManager deps.newManagerError ce with
              | error e => rw [hcm] at h; simp at h
              | ok cm =>
                rw [hcm] at h
                simp only [SoloOutcome.serving.injEq] at h
                exact ⟨backend, rfl, h.symm⟩

/-- C1: the bootstrap configuration scan proceeds from OLDEST forward over
the whole available chain and returns the last configuration transaction
encountered (the last single-message block whose bytes unmarshal); a block
with a message count other than one contributes no configuration.  On the
ledger [tx, tx, configA, tx, configB, tx] the result is configB, and a
multi-message block [configA, tx] contributes nothing. -/
theorem retrieveConfiguration_last_config_wins :
    (∀ (parse : Bytes → Option ConfigurationEnvelope) (chain : List Block),
      retrieveConfiguration parse (chain.map (fun b => (b, Status.SUCCESS)))
        = Except.ok ((chain.filterMap (configOf parse)).getLast?))
    ∧ retrieveConfiguration testParse
        (chainEx.map (fun b => (b, Status.SUCCESS)))
        = Except.ok (some { lastUpdate := [20], items := [] })
    ∧ retrieveConfiguration testParse
        (multiMsgChain.map (fun b => (b, Status.SUCCESS)))
        = Except.ok none := by
  refine ⟨fun parse chain => ?_, by decide, by decide⟩
  rw [retrieveConfiguration, loop_map_success, lastOr_none]

/-- C2: on the solo path, a genesis-block retrieval error, a non-SUCCESS
status from the bootstrap scan's Next(), or a scan that finds no
configuration transaction each make launchSolo panic, and the outcome is
never the serving one. -/
theorem launchSolo_bootstrap_failure_fatal :
    ∀ (parse : Bytes → Option ConfigurationEnvelope) (conf : TopLevel)
      (deps : SoloDeps),
      deps.listenOK = true →
      conf.general.genesisMethod = "static" →
      ((∃ e, deps.genesisBlockResult = Except.error e)
        ∨ (∃ p ∈ deps.chain, p.2 ≠ Status.SUCCESS)
        ∨ retrieveConfiguration parse deps.chain = Except.ok none) →
      (launchSolo parse conf deps).isPanicked = true
      ∧ (launchSolo parse conf deps).isServing = false := by
  intro parse conf deps hlisten hmethod hfail
  have hpan : (launchSolo parse conf deps).isPanicked = true := by
    unfold launchSolo
    rw [if_neg (by simp [hlisten]), if_neg (by simp [hmethod])]
    cases hg : deps.genesisBlockResult with
    | error e => rfl
    | ok gb =>
      simp only
      cases hsel : selectLedgerBackend deps.ledgerTypeEnv conf
          deps.tempDirResult with
      | error e => rfl
      | ok backend =>
        simp only
        cases hscan : retrieveConfiguration parse deps.chain with
        | error e => rfl
        | ok lc =>
          cases lc with
          | none => rfl
          | some ce =>
            exfalso
            rcases hfail with ⟨e, he⟩ | hbad | hnone
            · rw [hg] at he; cases he
            · rw [retrieveConfiguration,
                loop_error_of_bad_status parse deps.chain none hbad] at hscan
              cases hscan
            · rw [hnone] at hscan
              cases hscan
  exact ⟨hpan, isServing_false_of_isPanicked hpan⟩

/-- Witness for C2 at a concrete run whose ledger holds no configuration
transaction. -/
theorem launchSolo_bootstrap_failure_fatal_witness :
    (launchSolo testParse confEx depsNoConfig).isPanicked = true
    ∧ (launchSolo testParse confEx depsNoConfig).isServing = false :=
  launchSolo_bootstrap_failure_fatal testParse confEx depsNoConfig rfl rfl
    (Or.inr (Or.inr (by decide)))

/-- C3 (code-bug evidence): the serving outcome of launchSolo — the
arguments handed to solo.New, i.e. the whole broadcast pipeline — is the
same whatever configuration the bootstrap scan found: the configuration
manager is constructed and discarded, so the Broadcast accept/reject path
cannot depend on its policy set. -/
theorem launchSolo_consenter_ignores_config_manager :
    ∀ (parse : Bytes → Option ConfigurationEnvelope) (conf : TopLevel)
      (deps : SoloDeps) (chain1 chain2 : List (Block × Status))
      (a1 a2 : SoloArgs),
      launchSolo parse conf { deps with chain := chain1 }
          = SoloOutcome.serving a1 →
      launchSolo parse conf { deps with chain := chain2 }
          = SoloOutcome.serving a2 →
      a1 = a2 := by
  intro parse conf deps chain1 chain2 a1 a2 h1 h2
  obtain ⟨b1, hb1, ha1⟩ :=
    launchSolo_serving_args parse conf { deps with chain := chain1 } a1 h1
  obtain ⟨b2, hb2, ha2⟩ :=
    launchSolo_serving_args parse conf { deps with chain := chain2 } a2 h2
  have hb : (Except.ok b1 : Except String LedgerBackend) = Except.ok b2 :=
    hb1.symm.trans hb2
  cases hb
  rw [ha1, ha2]

/-- Witness for C3: two concrete startups whose ledgers carry different
configurations (configA vs configB) hand solo.New identical arguments. -/
theorem launchSolo_consenter_ignores_config_manager_witness :
    ({ queueSize := 100, batchSize := 10, maxWindowSize := 1000,
       batchTimeout := 10, backend := LedgerBackend.ram 10 } : SoloArgs)
    = ({ queueSize := 100, batchSize := 10, maxWindowSize := 1000,
         batchTimeout := 10, backend := LedgerBackend.ram 10 } : SoloArgs) :=
  launchSolo_consenter_ignores_config_manager testParse confEx depsServing
    chainA chainB _ _ (by decide) (by decide)

/-- C4: the stub crypto helper's VerifySignature returns true on every
input triple, so any two calls — with arbitrarily different messages,
identities and signatures — agree. -/
theorem xxxCryptoHelper_verify_constant_true :
    (∀ (h : xxxCryptoHelper) (msg ids sigs : Bytes),
      h.VerifySignature msg ids sigs = true)
    ∧ (∀ (h1 h2 : xxxCryptoHelper) (m1 i1 s1 m2 i2 s2 : Bytes),
      h1.VerifySignature m1 i1 s1 = h2.VerifySignature m2 i2 s2) :=
  ⟨fun _ _ _ _ => rfl, fun _ _ _ _ _ _ _ _ => rfl⟩

/-- C5: the configuration-handler map maps the Policy type to the policy
manager, every other declared type to the generic bytes handler, and its
domain is exactly the declared ConfigurationType set. -/
theorem configHandlerMap_policy_special :
    configHandlerMap.lookup Configuration_ConfigurationType.Policy
        = some Handler.policyManagerHandler
    ∧ (∀ t, t ≠ Configuration_ConfigurationType.Policy →
        configHandlerMap.lookup t = some Handler.bytesHandler)
    ∧ (∀ t : Configuration_ConfigurationType,
        t ∈ configHandlerMap.map Prod.fst)
    ∧ configHandlerMap.map Prod.fst
        = Configuration_ConfigurationType_name.map Prod.fst := by
  refine ⟨by decide, ?_, ?_, by decide⟩
  · intro t ht
    cases t with
    | Policy => exact absurd rfl ht
    | ChannelParameters => decide
  · intro t
    cases t with
    | Policy => decide
    | ChannelParameters => decide

/-- Witness for C5 at the one declared non-Policy type. -/
theorem configHandlerMap_policy_special_witness :
    Configuration_ConfigurationType.ChannelParameters
        ≠ Configuration_ConfigurationType.Policy
    ∧ configHandlerMap.lookup Configuration_ConfigurationType.ChannelParameters
        = some Handler.bytesHandler :=
  ⟨by decide, configHandlerMap_policy_special.2.1
    Configuration_ConfigurationType.ChannelParameters (by decide)⟩

/-- C6 (code-bug evidence): with the loaded configuration held fixed, the
ORDERER_LEDGER_TYPE environment variable alone changes which rawledger
backend launchSolo selects — the selection is not determined by the
loaded configuration. -/
theorem ledger_backend_selected_by_env :
    selectLedgerBackend "file" confEx (Except.ok "/tmpdir")
        ≠ selectLedgerBackend "ram" confEx (Except.ok "/tmpdir")
    ∧ launchSolo testParse confEx { depsServing with ledgerTypeEnv := "file" }
        ≠ launchSolo testParse confEx { depsServing with ledgerTypeEnv := "ram" } := by
  exact ⟨by decide, by decide⟩

/-- C7 counterexample: the declared Message2.Type tags do not include a
CONFIGURATION variant, so the claim that the enumeration includes both
TRANSACTION and CONFIGURATION is false. -/
theorem message2Type_no_configuration_variant :
    ¬ ("TRANSACTION" ∈ message2TypeNames
        ∧ "CONFIGURATION" ∈ message2TypeNames) := by
  decide

/-- C7 (amended): the Message2.Type enumeration declares TRANSACTION
alongside DISCOVERY, SYNC, PROPOSAL and PROPOSAL_RESULT (plus UNDEFINED,
PROPOSAL_SET and PROPOSAL_SET_RESULT), but no CONFIGURATION variant. -/
theorem message2Type_declared_variants :
    "TRANSACTION" ∈ message2TypeNames
    ∧ "DISCOVERY" ∈ message2TypeNames
    ∧ "SYNC" ∈ message2TypeNames
    ∧ "PROPOSAL" ∈ message2TypeNames
    ∧ "PROPOSAL_RESULT" ∈ message2TypeNames
    ∧ "CONFIGURATION" ∉ message2TypeNames
    ∧ message2TypeNames
        = ["UNDEFINED", "DISCOVERY", "SYNC", "PROPOSAL", "PROPOSAL_SET",
           "PROPOSAL_RESULT", "PROPOSAL_SET_RESULT", "TRANSACTION"]
    ∧ Message2Type.TRANSACTION.tag = 7 := by
  decide

/-- C8: the bootstrap scan terminates after at most one iteration per
already-available entry plus the final not-ready poll: with any fuel
exceeding the entry count, the fuelled loop finishes and agrees with the
recursive embedding, so the scan observes only blocks committed at call
time and never waits for future appends. -/
theorem retrieveConfiguration_scan_terminates :
    ∀ (parse : Bytes → Option ConfigurationEnvelope)
      (entries : List (Block × Status)) (acc : Option ConfigurationEnvelope)
      (fuel : Nat),
      entries.length < fuel →
      retrieveConfigurationFuel parse fuel entries acc
        = some (retrieveConfigurationLoop parse entries acc) := by
  intro parse entries
  induction entries with
  | nil =>
    intro acc fuel h
    cases fuel with
    | zero => exact absurd h (by simp)
    | succ n => rfl
  | cons p rest ih =>
    intro acc fuel h
    cases fuel with
    | zero => exact absurd h (by simp)
    | succ n =>
      rcases p with ⟨b, s⟩
      rw [fuel_cons, loop_cons]
      by_cases hs : s = Status.SUCCESS
      · rw [if_neg (by simp [hs]), if_neg (by simp [hs])]
        exact ih (scanStep parse b acc) n (by simpa using h)
      · rw [if_pos hs, if_pos hs]

/-- Witness for C8 on the six-block example chain with fuel 7. -/
theorem retrieveConfiguration_scan_terminates_witness :
    (chainEx.map (fun b => (b, Status.SUCCESS))).length < 7
    ∧ retrieveConfigurationFuel testParse 7
        (chainEx.map (fun b => (b, Status.SUCCESS))) none
      = some (retrieveConfigurationLoop testParse
          (chainEx.map (fun b => (b, Status.SUCCESS))) none) :=
  ⟨by decide, retrieveConfiguration_scan_terminates testParse
    (chainEx.map (fun b => (b, Status.SUCCESS))) none 7 (by decide)⟩

/-- C9: the scan classifies a block only by its status, whether it has
exactly one message, and whether that message's data bytes unmarshal: two
entry lists agreeing on those observations (message type tags may differ
arbitrarily) give identical results, and a single-message block whose
bytes fail to parse is skipped without error. -/
theorem scan_classifies_by_parse_only :
    (∀ (parse : Bytes → Option ConfigurationEnvelope)
       (entries1 entries2 : List (Block × Status)),
       entries1.map (fun p => (scanView p.1, p.2))
         = entries2.map (fun p => (scanView p.1, p.2)) →
       retrieveConfiguration parse entries1
         = retrieveConfiguration parse entries2)
    ∧ (∀ (parse : Bytes → Option ConfigurationEnvelope) (m : Msg)
       (rest : List (Block × Status)) (acc : Option ConfigurationEnvelope),
       parse m.data = none →
       retrieveConfigurationLoop parse
           (({ messages := [m] }, Status.SUCCESS) :: rest) acc
         = retrieveConfigurationLoop parse rest acc) := by
  constructor
  · intro parse e1 e2 h
    exact loop_view_congr parse e1 e2 none h
  · intro parse m rest acc hp
    rw [loop_cons, if_neg (by simp)]
    simp [scanStep, configOf, hp]

/-- Witness for C9: same data bytes under different message type tags give
the same scan result, and a concrete failed-parse block is skipped. -/
theorem scan_classifies_by_parse_only_witness :
    retrieveConfiguration testParse
        [({ messages := [{ mtype := 3, data := [1, 10] }] }, Status.SUCCESS)]
      = retrieveConfiguration testParse
        [({ messages := [{ mtype := 9, data := [1, 10] }] }, Status.SUCCESS)]
    ∧ retrieveConfigurationLoop testParse
        [({ messages := [txMsg] }, Status.SUCCESS)] none
      = retrieveConfigurationLoop testParse [] none :=
  ⟨scan_classifies_by_parse_only.1 testParse _ _ (by decide),
   scan_classifies_by_parse_only.2 testParse txMsg [] none (by decide)⟩

/-- C10: the kafka launch path performs no genesis-block retrieval, no
ledger configuration scan and no configuration-manager construction before
registering the AtomicBroadcast service and serving; those bootstrap steps
happen only on the solo path. -/
theorem launchKafka_skips_bootstrap :
    StartupAction.retrieveGenesisBlock ∉ kafkaStartupTrace
    ∧ StartupAction.scanLedgerForConfig ∉ kafkaStartupTrace
    ∧ StartupAction.buildConfigManager ∉ kafkaStartupTrace
    ∧ StartupAction.selectLedger ∉ kafkaStartupTrace
    ∧ StartupAction.registerAtomicBroadcast ∈ kafkaStartupTrace
    ∧ StartupAction.serveGrpc ∈ kafkaStartupTrace
    ∧ StartupAction.retrieveGenesisBlock ∈ soloStartupTrace
    ∧ StartupAction.scanLedgerForConfig ∈ soloStartupTrace
    ∧ StartupAction.buildConfigManager ∈ soloStartupTrace := by
  decide

end Fabric

